import Mathlib

/-!
Verification of the AxumSessions session-lifecycle engine (`src/session.rs`).

The session record's key/value data (`HashMap<String, String>` in the source)
and the in-memory store (`DashMap<String, AxumSessionData>`) are embedded as
association lists with unique keys; `mapGet`, `mapInsert` and `mapRemove`
mirror `HashMap::get`, `HashMap::insert` and `HashMap::remove`.  Serialization
(`serde_json::to_string`) is abstracted as an `Option String` (the serialized
form, `none` on failure) and deserialization (`serde_json::from_str::<T>`) as a
function `String → Option T`, both supplied as parameters, since the session
engine treats them opaquely.
-/

namespace AxumSessions

/-- Session record, `AxumSessionData` (fields as used in `src/session.rs` and
described by the spec's Record: identifier, string-keyed map of serialized
values, expiry and the lifecycle flags `longterm`, `storable`, `destroy`,
`renew`, `update`). -/
structure AxumSessionData where
  id : String
  data : List (String × String)
  expires : Int
  longterm : Bool
  storable : Bool
  destroy : Bool
  renew : Bool
  update : Bool
deriving DecidableEq, Repr

/-- The in-memory store: mapping from identifier (string form) to record. -/
abbrev SessionStore := List (String × AxumSessionData)

/-- Map lookup, models `HashMap::get` (keys are unique; first match). -/
def mapGet {β : Type _} (l : List (String × β)) (key : String) : Option β :=
  match l with
  | [] => none
  | (k, v) :: rest => if k = key then some v else mapGet rest key

/-- Map insertion, models `HashMap::insert`: replaces the value of an existing
key, otherwise appends the new entry. -/
def mapInsert {β : Type _} (l : List (String × β)) (key : String) (value : β) :
    List (String × β) :=
  match l with
  | [] => [(key, value)]
  | (k, v) :: rest =>
    if k = key then (key, value) :: rest else (k, v) :: mapInsert rest key value

/-- Map removal, models `HashMap::remove` (dropping the returned old value). -/
def mapRemove {β : Type _} (l : List (String × β)) (key : String) :
    List (String × β) :=
  match l with
  | [] => []
  | (k, v) :: rest =>
    if k = key then mapRemove rest key else (k, v) :: mapRemove rest key

/-- Models `AxumSession::tap` for the mutating operations: if the store holds a
record for `id`, mutate it in place with `func`; otherwise (`get_mut` returned
`None`) log a warning and leave the store unchanged. -/
def tap (store : SessionStore) (id : String)
    (func : AxumSessionData → AxumSessionData) : SessionStore :=
  match store with
  | [] => []
  | (k, v) :: rest =>
    if k = id then (k, func v) :: rest else (k, v) :: tap rest id func

/-- Models `AxumSession::tap` for an operation whose closure both returns a
value and mutates the record (`get_remove`): on a missing record it returns
`none` and leaves the store unchanged. -/
def tapGet {T : Type _} (store : SessionStore) (id : String)
    (func : AxumSessionData → Option T × AxumSessionData) :
    Option T × SessionStore :=
  match store with
  | [] => (none, [])
  | (k, v) :: rest =>
    if k = id then
      let r := func v
      (r.1, (k, r.2) :: rest)
    else
      let r := tapGet rest id func
      (r.1, (k, v) :: r.2)

/-- Body of the closure in `AxumSession::set`: `value` is
`serde_json::to_string(&value).unwrap_or_else(|_| "".to_string())`, embedded as
`ser.getD ""` (`ser = none` models serialization failure).  If the stored
string for `key` differs from `value` (or the key is absent), insert and mark
`update = true`; otherwise do nothing. -/
def sessionSet (ser : Option String) (key : String) (sess : AxumSessionData) :
    AxumSessionData :=
  let value := ser.getD ""
  if mapGet sess.data key ≠ some value then
    { sess with data := mapInsert sess.data key value, update := true }
  else
    sess

/-- `AxumSession::set`. -/
def set (ser : Option String) (key : String) (store : SessionStore)
    (id : String) : SessionStore :=
  tap store id (sessionSet ser key)

/-- `AxumSession::get`: look up `key` in the record's data, deserialize with
`deser` (`serde_json::from_str(string).ok()`); `none` on a missing record,
missing key, or deserialization failure.  The closure does not mutate. -/
def get {T : Type _} (deser : String → Option T) (key : String)
    (store : SessionStore) (id : String) : Option T :=
  match mapGet store id with
  | some sess => (mapGet sess.data key).bind (fun s => deser s)
  | none => none

/-- Body of the closure in `AxumSession::get_remove`:
`let string = sess.data.remove(key)?;` — if the key is absent the `?` returns
`none` without touching the record; otherwise the key is removed, `update` is
set, and the removed string is deserialized. -/
def sessionGetRemove {T : Type _} (deser : String → Option T) (key : String)
    (sess : AxumSessionData) : Option T × AxumSessionData :=
  match mapGet sess.data key with
  | none => (none, sess)
  | some s =>
    (deser s, { sess with data := mapRemove sess.data key, update := true })

/-- `AxumSession::get_remove`. -/
def get_remove {T : Type _} (deser : String → Option T) (key : String)
    (store : SessionStore) (id : String) : Option T × SessionStore :=
  tapGet store id (sessionGetRemove deser key)

/-- Body of the closure in `AxumSession::remove`: `sess.update = true;
sess.data.remove(key)` — `update` is set unconditionally, before the removal,
whether or not the key is present. -/
def sessionRemove (key : String) (sess : AxumSessionData) : AxumSessionData :=
  { sess with update := true, data := mapRemove sess.data key }

/-- `AxumSession::remove`. -/
def remove (key : String) (store : SessionStore) (id : String) : SessionStore :=
  tap store id (sessionRemove key)

/-- Body of `AxumSession::clear`: `instance.data.clear(); instance.update =
true;` (the source inlines the `tap` pattern with the same missing-record
handling). -/
def sessionClear (sess : AxumSessionData) : AxumSessionData :=
  { sess with data := [], update := true }

/-- `AxumSession::clear`. -/
def clear (store : SessionStore) (id : String) : SessionStore :=
  tap store id sessionClear

/-- Body of the closure in `AxumSession::renew`. -/
def sessionRenew (sess : AxumSessionData) : AxumSessionData :=
  { sess with renew := true, update := true }

/-- `AxumSession::renew`. -/
def renew (store : SessionStore) (id : String) : SessionStore :=
  tap store id sessionRenew

/-- Body of the closure in `AxumSession::destroy`. -/
def sessionDestroy (sess : AxumSessionData) : AxumSessionData :=
  { sess with destroy := true, update := true }

/-- `AxumSession::destroy`. -/
def destroy (store : SessionStore) (id : String) : SessionStore :=
  tap store id sessionDestroy

/-- Body of the closure in `AxumSession::set_longterm`. -/
def sessionSetLongterm (longterm : Bool) (sess : AxumSessionData) :
    AxumSessionData :=
  { sess with longterm := longterm, update := true }

/-- `AxumSession::set_longterm`. -/
def set_longterm (longterm : Bool) (store : SessionStore) (id : String) :
    SessionStore :=
  tap store id (sessionSetLongterm longterm)

/-- Body of the closure in `AxumSession::set_store`. -/
def sessionSetStore (storable : Bool) (sess : AxumSessionData) :
    AxumSessionData :=
  { sess with storable := storable, update := true }

/-- `AxumSession::set_store`. -/
def set_store (storable : Bool) (store : SessionStore) (id : String) :
    SessionStore :=
  tap store id (sessionSetStore storable)

/-- `AxumSession::generate_uuid`.  `containsKey` is
`store.inner.contains_key`, `client` the optional persistence backend whose
`exists` query may fail (`Except.error`, which the source `.unwrap()`s — a
panic, modelled as the error terminating issuance).  The unbounded `loop` over
freshly drawn `Uuid::new_v4()` candidates is embedded as structural recursion
over the stream `cands` of candidates; `none` means the stream was exhausted
with no decision (the real loop would keep drawing). -/
def generate_uuid (containsKey : String → Bool)
    (client : Option (String → Except Unit Bool)) :
    List String → Option (Except Unit String)
  | [] => none
  | token :: rest =>
    if containsKey token then
      generate_uuid containsKey client rest
    else
      match client with
      | some ex =>
        match ex token with
        | Except.error e => some (Except.error e)
        | Except.ok true => generate_uuid containsKey client rest
        | Except.ok false => some (Except.ok token)
      | none => some (Except.ok token)

/-- Modelled from the spec: `AxumSessionStore::is_persistent` and
`AxumSessionStore::count` live in `session_store.rs`, which is not among the
provided sources.  Per the spec, persistence is configured exactly when a
backend client is present, and the backend `count()` query returns the row
count or a communication error; `backendCount` packages the two
(`none` = no persistence configured).  `AxumSession::count` itself is in the
source: `if is_persistent { store.count().await.unwrap_or(0) } else
{ inner.len() as i64 }`. -/
def count (inner : SessionStore) (backendCount : Option (Except Unit Int)) :
    Int :=
  match backendCount with
  | some r =>
    match r with
    | Except.ok n => n
    | Except.error _ => 0
  | none => (inner.length : Int)

/-! Basic lemmas about the map operations and `tap`. -/

theorem mapGet_mapInsert_self {β : Type _} (l : List (String × β)) (key : String)
    (value : β) : mapGet (mapInsert l key value) key = some value := by
  induction l with
  | nil => simp [mapInsert, mapGet]
  | cons p rest ih =>
    obtain ⟨k, v⟩ := p
    by_cases h : k = key
    · simp [mapInsert, h, mapGet]
    · simp [mapInsert, h, mapGet, ih]

theorem mapGet_mapRemove_self {β : Type _} (l : List (String × β)) (key : String) :
    mapGet (mapRemove l key) key = none := by
  induction l with
  | nil => simp [mapRemove, mapGet]
  | cons p rest ih =>
    obtain ⟨k, v⟩ := p
    by_cases h : k = key
    · simp [mapRemove, h, ih]
    · simp [mapRemove, h, mapGet, ih]

theorem tap_mapGet_self (store : SessionStore) (id : String)
    (func : AxumSessionData → AxumSessionData) :
    mapGet (tap store id func) id = (mapGet store id).map func := by
  induction store with
  | nil => simp [tap, mapGet]
  | cons p rest ih =>
    obtain ⟨k, v⟩ := p
    by_cases h : k = id
    · simp [tap, h, mapGet]
    · simp [tap, h, mapGet, ih]

theorem tap_absent (store : SessionStore) (id : String)
    (func : AxumSessionData → AxumSessionData) (h : mapGet store id = none) :
    tap store id func = store := by
  induction store with
  | nil => simp [tap]
  | cons p rest ih =>
    obtain ⟨k, v⟩ := p
    by_cases hk : k = id
    · simp [mapGet, hk] at h
    · simp only [mapGet, if_neg hk] at h
      simp [tap, hk, ih h]

theorem tap_fix (store : SessionStore) (id : String)
    (func : AxumSessionData → AxumSessionData) (sess : AxumSessionData)
    (h : mapGet store id = some sess) (hf : func sess = sess) :
    tap store id func = store := by
  induction store with
  | nil => simp [mapGet] at h
  | cons p rest ih =>
    obtain ⟨k, v⟩ := p
    by_cases hk : k = id
    · simp only [mapGet, if_pos hk, Option.some.injEq] at h
      subst h
      simp [tap, hk, hf]
    · simp only [mapGet, if_neg hk] at h
      simp [tap, hk, ih h]

theorem tapGet_absent {T : Type _} (store : SessionStore) (id : String)
    (func : AxumSessionData → Option T × AxumSessionData)
    (h : mapGet store id = none) : tapGet store id func = (none, store) := by
  induction store with
  | nil => simp [tapGet]
  | cons p rest ih =>
    obtain ⟨k, v⟩ := p
    by_cases hk : k = id
    · simp [mapGet, hk] at h
    · simp only [mapGet, if_neg hk] at h
      simp [tapGet, hk, ih h]

theorem tapGet_present {T : Type _} (store : SessionStore) (id : String)
    (func : AxumSessionData → Option T × AxumSessionData) (sess : AxumSessionData)
    (h : mapGet store id = some sess) :
    (tapGet store id func).1 = (func sess).1 ∧
    mapGet (tapGet store id func).2 id = some (func sess).2 := by
  induction store with
  | nil => simp [mapGet] at h
  | cons p rest ih =>
    obtain ⟨k, v⟩ := p
    by_cases hk : k = id
    · simp only [mapGet, if_pos hk, Option.some.injEq] at h
      subst h
      simp [tapGet, hk, mapGet]
    · simp only [mapGet, if_neg hk] at h
      simpa [tapGet, hk, mapGet] using ih h

theorem get_present {T : Type _} (deser : String → Option T) (key : String)
    (store : SessionStore) (id : String) (sess : AxumSessionData)
    (h : mapGet store id = some sess) :
    get deser key store id = (mapGet sess.data key).bind (fun s => deser s) := by
  simp only [get, h]

theorem generate_uuid_ok_free (ck : String → Bool)
    (client : Option (String → Except Unit Bool)) :
    ∀ (cands : List String) (id : String),
      generate_uuid ck client cands = some (Except.ok id) →
      ck id = false ∧ ∀ ex, client = some ex → ex id = Except.ok false := by
  intro cands
  induction cands with
  | nil => intro id h; simp [generate_uuid] at h
  | cons t rest ih =>
    intro id h
    simp only [generate_uuid] at h
    by_cases hc : ck t
    · rw [if_pos hc] at h
      exact ih id h
    · rw [if_neg hc] at h
      cases client with
      | none =>
        simp only [Option.some.injEq, Except.ok.injEq] at h
        subst h
        exact ⟨by simpa using hc, fun ex hex => by cases hex⟩
      | some ex =>
        dsimp only at h
        cases hex : ex t with
        | error e => rw [hex] at h; simp at h
        | ok b =>
          rw [hex] at h
          cases b with
          | true => exact ih id h
          | false =>
            simp only [Option.some.injEq, Except.ok.injEq] at h
            subst h
            refine ⟨by simpa using hc, ?_⟩
            intro ex2 hex2
            injection hex2 with he
            subst he
            exact hex

/-- C1: `generate_uuid` only returns an identifier that, at the time of the
checks, is not a key of the in-memory store and, when a backend client is
configured, for which the backend's `exists` query returned `false`; a
candidate failing either check is discarded and the loop continues with a
fresh candidate. -/
theorem generate_uuid_issuance_checks (ck : String → Bool)
    (client : Option (String → Except Unit Bool)) (cands : List String)
    (id : String) (h : generate_uuid ck client cands = some (Except.ok id)) :
    (ck id = false ∧ ∀ ex, client = some ex → ex id = Except.ok false) ∧
    (∀ t rest, ck t = true →
      generate_uuid ck client (t :: rest) = generate_uuid ck client rest) ∧
    (∀ ex t rest, client = some ex → ck t = false → ex t = Except.ok true →
      generate_uuid ck client (t :: rest) = generate_uuid ck client rest) := by
  refine ⟨generate_uuid_ok_free ck client cands id h, ?_, ?_⟩
  · intro t rest hct
    simp [generate_uuid, hct]
  · intro ex t rest hcl hct hex
    subst hcl
    simp [generate_uuid, hct, hex]

/-- Witness for C1 on a concrete run: the store holds `"a"`, the backend
holds `"b"`, and the candidate stream is `["a", "b", "c"]`; issuance accepts
`"c"`, which passes both checks. -/
theorem generate_uuid_issuance_checks_witness :
    (((fun s : String => s == "a") "c" = false) ∧
      ∀ ex, (some (fun s : String => Except.ok (s == "b")) :
          Option (String → Except Unit Bool)) = some ex →
        ex "c" = Except.ok false) ∧
    (∀ t rest, (fun s : String => s == "a") t = true →
      generate_uuid (fun s => s == "a")
          (some (fun s => Except.ok (s == "b"))) (t :: rest) =
        generate_uuid (fun s => s == "a")
          (some (fun s => Except.ok (s == "b"))) rest) ∧
    (∀ ex t rest,
      (some (fun s : String => Except.ok (s == "b")) :
          Option (String → Except Unit Bool)) = some ex →
      (fun s : String => s == "a") t = false → ex t = Except.ok true →
      generate_uuid (fun s => s == "a")
          (some (fun s => Except.ok (s == "b"))) (t :: rest) =
        generate_uuid (fun s => s == "a")
          (some (fun s => Except.ok (s == "b"))) rest) :=
  generate_uuid_issuance_checks (fun s => s == "a")
    (some (fun s => Except.ok (s == "b"))) ["a", "b", "c"] "c" (by rfl)

/-- C8: a backend communication failure of the `exists` query is fatal for the
issuance attempt: the error propagates (the source `.unwrap()`s, i.e. panics)
and the failing candidate is never accepted as if it were free. -/
theorem exists_failure_fatal (ck : String → Bool)
    (ex : String → Except Unit Bool) (t : String) (rest : List String)
    (e : Unit) (h1 : ck t = false) (h2 : ex t = Except.error e) :
    generate_uuid ck (some ex) (t :: rest) = some (Except.error e) ∧
    ∀ id, generate_uuid ck (some ex) (t :: rest) ≠ some (Except.ok id) := by
  have hmain : generate_uuid ck (some ex) (t :: rest) =
      some (Except.error e) := by
    simp [generate_uuid, h1, h2]
  refine ⟨hmain, ?_⟩
  intro id hcontra
  rw [hmain] at hcontra
  simp at hcontra

/-- Witness for C8: a backend whose `exists` always fails makes issuance
propagate the error on the first free candidate. -/
theorem exists_failure_fatal_witness :
    generate_uuid (fun _ => false) (some (fun _ => Except.error ())) ["a"] =
      some (Except.error ()) :=
  (exists_failure_fatal (fun _ => false) (fun _ => Except.error ()) "a" [] ()
    rfl rfl).1

/-- C2: when the serialized form `s` equals the string already stored under
`key`, `set` leaves the whole store (hence the record, in particular its
`update` flag) entirely unchanged; when it differs or the key is absent, `set`
inserts the serialized string and sets `update = true`. -/
theorem set_noop_and_dirty (key s : String) (store : SessionStore)
    (id : String) (sess : AxumSessionData) (h : mapGet store id = some sess) :
    (mapGet sess.data key = some s → set (some s) key store id = store) ∧
    (mapGet sess.data key ≠ some s →
      mapGet (set (some s) key store id) id =
        some { sess with data := mapInsert sess.data key s, update := true }) := by
  constructor
  · intro heq
    apply tap_fix store id _ sess h
    simp [sessionSet, heq]
  · intro hne
    rw [set, tap_mapGet_self, h]
    simp [sessionSet, hne]

/-- Witness for C2: re-setting key `"k"` to its already-stored serialized
value `"v"` leaves the store (with `update = false`) unchanged. -/
theorem set_noop_and_dirty_witness :
    set (some "v") "k"
        [("i", ⟨"i", [("k", "v")], 0, false, false, false, false, false⟩)]
        "i" =
      [("i", ⟨"i", [("k", "v")], 0, false, false, false, false, false⟩)] :=
  (set_noop_and_dirty "k" "v"
    [("i", ⟨"i", [("k", "v")], 0, false, false, false, false, false⟩)] "i"
    ⟨"i", [("k", "v")], 0, false, false, false, false, false⟩ (by rfl)).1
    (by rfl)

/-- C3: if serialization of `v` succeeded with string `serVal` and
deserialization round-trips (`deser serVal = some v`), then on a present
record `set` followed by `get` returns `some v`. -/
theorem set_get_roundtrip {T : Type _} (deser : String → Option T)
    (serVal : String) (v : T) (key : String) (store : SessionStore)
    (id : String) (sess : AxumSessionData) (hround : deser serVal = some v)
    (h : mapGet store id = some sess) :
    get deser key (set (some serVal) key store id) id = some v := by
  have hm : mapGet (set (some serVal) key store id) id =
      some (sessionSet (some serVal) key sess) := by
    rw [set, tap_mapGet_self, h]; rfl
  rw [get_present deser key _ id _ hm]
  by_cases hc : mapGet sess.data key = some serVal
  · simp [sessionSet, hc, hround]
  · simp [sessionSet, hc, mapGet_mapInsert_self, hround]

/-- Witness for C3: storing `7` (serialized as `"7"`) under `"k"` and reading
it back yields `some 7`. -/
theorem set_get_roundtrip_witness :
    get (fun s => if s = "7" then some (7 : Nat) else none) "k"
        (set (some "7") "k"
          [("i", ⟨"i", [], 0, false, false, false, false, false⟩)] "i") "i" =
      some 7 :=
  set_get_roundtrip (fun s => if s = "7" then some (7 : Nat) else none) "7" 7
    "k" [("i", ⟨"i", [], 0, false, false, false, false, false⟩)] "i"
    ⟨"i", [], 0, false, false, false, false, false⟩ (by rfl) (by rfl)

/-- C5: on a present record, `remove` erases the key from the data map and
sets `update = true` unconditionally; a subsequent `get` of the same key
returns `none`. -/
theorem remove_deletes_and_dirties {T : Type _} (deser : String → Option T)
    (key : String) (store : SessionStore) (id : String)
    (sess : AxumSessionData) (h : mapGet store id = some sess) :
    mapGet (remove key store id) id =
      some { sess with data := mapRemove sess.data key, update := true } ∧
    get deser key (remove key store id) id = none := by
  have hm : mapGet (remove key store id) id =
      some (sessionRemove key sess) := by
    rw [remove, tap_mapGet_self, h]; rfl
  refine ⟨hm, ?_⟩
  rw [get_present deser key _ id _ hm]
  simp [sessionRemove, mapGet_mapRemove_self]

/-- Witness for C5: removing `"k"` from a record that does not even hold it
still sets `update = true`, and `get "k"` afterwards returns `none`. -/
theorem remove_deletes_and_dirties_witness :
    get (fun _ => (none : Option Nat)) "k"
        (remove "k"
          [("i", ⟨"i", [("j", "x")], 0, false, false, false, false, false⟩)]
          "i") "i" =
      none :=
  (remove_deletes_and_dirties (fun _ => (none : Option Nat)) "k"
    [("i", ⟨"i", [("j", "x")], 0, false, false, false, false, false⟩)] "i"
    ⟨"i", [("j", "x")], 0, false, false, false, false, false⟩ (by rfl)).2

/-- C4 counterexample: `remove` of the absent key `"k"` on a record with
`update = false` and otherwise default fields yields a record whose fields are
all identical except that `update` is now `true` — an operation set
`update = true` while leaving every other field identical to the committed
snapshot, so the claimed iff-invariant fails. -/
theorem update_iff_diverged_counterexample :
    mapGet
        (remove "k"
          [("i", ⟨"i", [], 0, false, false, false, false, false⟩)] "i") "i" =
      some ⟨"i", [], 0, false, false, false, false, true⟩ := by decide

/-- C4 amended: the invariant holds in one direction only.  `set` dirties the
record exactly when it changes it (if `update` comes out `false` the record is
untouched), but `remove` and `set_store` (like the other flag setters) set
`update = true` unconditionally, even when the record's other fields are left
identical (remove of an absent key, `set_store` re-assigning the flag's
current value). -/
theorem update_flag_one_directional (key : String) (b : Bool)
    (ser : Option String) (sess : AxumSessionData) :
    (sessionRemove key sess).update = true ∧
    (sessionSetStore b sess).update = true ∧
    ((sessionSet ser key sess).update = false → sessionSet ser key sess = sess) := by
  refine ⟨rfl, rfl, ?_⟩
  intro h
  by_cases hc : mapGet sess.data key ≠ some (ser.getD "")
  · exfalso
    simp only [sessionSet] at h
    rw [if_pos hc] at h
    simp at h
  · simp [sessionSet, hc]

/-- Witness for C4 (amended): a `set` that writes the value already stored
leaves `update = false` and hence the record unchanged. -/
theorem update_flag_one_directional_witness :
    sessionSet (some "v") "k"
        ⟨"i", [("k", "v")], 0, false, false, false, false, false⟩ =
      ⟨"i", [("k", "v")], 0, false, false, false, false, false⟩ :=
  (update_flag_one_directional "k" true (some "v")
    ⟨"i", [("k", "v")], 0, false, false, false, false, false⟩).2.2 (by decide)

/-- C6 counterexample: `get_remove` of key `"k"` whose stored string fails to
deserialize returns `none` but does NOT leave the record in the same state as
the absent-key case: it removes the key and sets `update = true`, while on an
absent key the record is returned unchanged. -/
theorem get_remove_failure_state_counterexample :
    (sessionGetRemove (fun _ => (none : Option Nat)) "k"
        ⟨"i", [("k", "bad")], 0, false, false, false, false, false⟩).1 =
      none ∧
    (sessionGetRemove (fun _ => (none : Option Nat)) "k"
        ⟨"i", [("k", "bad")], 0, false, false, false, false, false⟩).2 ≠
      ⟨"i", [("k", "bad")], 0, false, false, false, false, false⟩ ∧
    sessionGetRemove (fun _ => (none : Option Nat)) "k"
        ⟨"i", [], 0, false, false, false, false, false⟩ =
      (none, ⟨"i", [], 0, false, false, false, false, false⟩) := by decide

/-- C6 amended: `get` and `get_remove` both return `none` on a
deserialization failure exactly as on an absent key (and `get` never mutates
the record in either case), but `get_remove` in the failure case still removes
the key and sets `update = true` — because the key existed — so its resulting
record state differs from the absent-key case. -/
theorem deser_failure_like_absent (T : Type) (deser : String → Option T)
    (key s : String) (sess : AxumSessionData)
    (hpres : mapGet sess.data key = some s) (hfail : deser s = none) :
    (sessionGetRemove deser key sess).1 = none ∧
    (sessionGetRemove deser key sess).2 =
      { sess with data := mapRemove sess.data key, update := true } ∧
    (∀ sess2 : AxumSessionData, mapGet sess2.data key = none →
      sessionGetRemove deser key sess2 = (none, sess2)) ∧
    (∀ (store : SessionStore) (id : String), mapGet store id = some sess →
      get deser key store id = none) ∧
    (∀ (store : SessionStore) (id : String) (sess2 : AxumSessionData),
      mapGet store id = some sess2 → mapGet sess2.data key = none →
      get deser key store id = none) := by
  refine ⟨?_, ?_, ?_, ?_, ?_⟩
  · simp [sessionGetRemove, hpres, hfail]
  · simp [sessionGetRemove, hpres]
  · intro sess2 h2
    simp [sessionGetRemove, h2]
  · intro store id h
    rw [get_present deser key store id sess h, hpres]
    simp [hfail]
  · intro store id sess2 h h2
    rw [get_present deser key store id sess2 h, h2]
    rfl

/-- Witness for C6 (amended): a failing deserializer on a present key makes
`get_remove` return `none`. -/
theorem deser_failure_like_absent_witness :
    (sessionGetRemove (fun _ => (none : Option Nat)) "k"
        ⟨"i", [("k", "x")], 0, false, false, false, false, false⟩).1 = none :=
  (deser_failure_like_absent Nat (fun _ => (none : Option Nat)) "k" "x"
    ⟨"i", [("k", "x")], 0, false, false, false, false, false⟩ (by rfl) rfl).1

/-- C7: when the in-memory store holds no record for the session's
identifier, every Session Handle operation is non-fatal: the getters return
`none` and the mutating operations leave the store unchanged and return
normally. -/
theorem missing_record_nonfatal {T : Type _} (deser : String → Option T)
    (key : String) (ser : Option String) (b c : Bool) (store : SessionStore)
    (id : String) (h : mapGet store id = none) :
    get deser key store id = none ∧
    get_remove deser key store id = (none, store) ∧
    set ser key store id = store ∧
    remove key store id = store ∧
    clear store id = store ∧
    renew store id = store ∧
    destroy store id = store ∧
    set_longterm b store id = store ∧
    set_store c store id = store := by
  refine ⟨?_, ?_, ?_, ?_, ?_, ?_, ?_, ?_, ?_⟩
  · simp [get, h]
  · exact tapGet_absent store id _ h
  · exact tap_absent store id _ h
  · exact tap_absent store id _ h
  · exact tap_absent store id _ h
  · exact tap_absent store id _ h
  · exact tap_absent store id _ h
  · exact tap_absent store id _ h
  · exact tap_absent store id _ h

/-- Witness for C7: every operation on an empty store with identifier `"x"`
is a no-op. -/
theorem missing_record_nonfatal_witness :
    clear [] "x" = [] :=
  (missing_record_nonfatal (fun _ => (none : Option Nat)) "k" none true true
    [] "x" rfl).2.2.2.2.1

/-- C9: `count` returns the persistent backend's row count when persistence
is configured (and the backend query succeeds), and otherwise the number of
records resident in the in-memory store. -/
theorem count_persistent_or_resident (inner : SessionStore) (n : Int) :
    count inner (some (Except.ok n)) = n ∧
    count inner none = (inner.length : Int) :=
  ⟨rfl, rfl⟩

/-- C10: when serialization fails, `set` does not fail or skip the write: it
stores the empty string under the key (and, if the stored value was not
already `""`, marks `update = true`); a later `get` returns `none` (the empty
string deserializes into no type) while the key is present mapping to `""`. -/
theorem set_serialization_failure {T : Type _} (deser : String → Option T)
    (key : String) (store : SessionStore) (id : String)
    (sess : AxumSessionData) (h : mapGet store id = some sess)
    (hdeser : deser "" = none) :
    mapGet (set none key store id) id = some (sessionSet none key sess) ∧
    mapGet (sessionSet none key sess).data key = some "" ∧
    (mapGet sess.data key ≠ some "" → (sessionSet none key sess).update = true) ∧
    get deser key (set none key store id) id = none := by
  have hm : mapGet (set none key store id) id =
      some (sessionSet none key sess) := by
    rw [set, tap_mapGet_self, h]; rfl
  have hdata : mapGet (sessionSet none key sess).data key = some "" := by
    by_cases hc : mapGet sess.data key = some ""
    · simp [sessionSet, hc]
    · simp [sessionSet, hc, mapGet_mapInsert_self]
  refine ⟨hm, hdata, ?_, ?_⟩
  · intro hne
    simp [sessionSet, hne]
  · rw [get_present deser key _ id _ hm, hdata]
    simp [hdeser]

/-- Witness for C10: a failed serialization of the value for `"k"` overwrites
the stored `"v"` with `""`, and a later `get` returns `none`. -/
theorem set_serialization_failure_witness :
    get (fun _ => (none : Option Nat)) "k"
        (set none "k"
          [("i", ⟨"i", [("k", "v")], 0, false, false, false, false, false⟩)]
          "i") "i" =
      none :=
  (set_serialization_failure (fun _ => (none : Option Nat)) "k"
    [("i", ⟨"i", [("k", "v")], 0, false, false, false, false, false⟩)] "i"
    ⟨"i", [("k", "v")], 0, false, false, false, false, false⟩ (by rfl)
    rfl).2.2.2

end AxumSessions
